import Mathlib

/-!
Shallow embedding of the game API of `src/api/game.ts` (the cryptex
repository).  TypeScript records become Lean structures, the MongoDB-backed
key/value store becomes explicit values passed in and out of each operation,
timestamps (ISO strings / epoch milliseconds in the source) become `Nat`
clock parameters, and each `switch (action)` case of the request handler
becomes a pure function from the store contents (plus the request body and
the clock) to the new store contents and an `Except`-typed response.

Modelling notes:
* JavaScript string falsiness (`if (!x)`) is modelled by explicit tests
  against the empty string; `undefined`/missing JSON fields are `Option`.
* `String.prototype.toUpperCase` is modelled per character with
  `Char.toUpper`, which matches JavaScript exactly on ASCII input (the
  only divergence is exotic Unicode expansions such as ß → SS, irrelevant
  to every property below because non-`A`–`Z` characters are stripped).
* A JavaScript object keyed by username is modelled as an association list
  in insertion order (`rosterSet` updates in place or appends, which is
  exactly how property assignment behaves on a JS object).
-/

inductive GameMode where
  | free : GameMode
  | controlled : GameMode
deriving DecidableEq, Repr

/-- Round configuration, `interface RoundConfig` (game.ts:157-164). -/
structure RoundConfig where
  id : Nat
  name : String
  solution : String
  difficulty : String
  question : String
  hints : List String
deriving DecidableEq, Repr

/-- Player record, `interface Player` (game.ts:166-177). -/
structure Player where
  username : String
  joinedAt : Nat
  currentRound : Nat
  roundsCompleted : List Bool
  roundTimes : List Nat
  isFinished : Bool
  finishedAt : Option Nat
  roundStartTime : Option Nat
  hasFoundCurrentRound : Bool
  avatar : Option String
deriving DecidableEq, Repr

/-- Game state singleton, `interface GameState` (game.ts:179-198). -/
structure GameState where
  id : String
  rounds : List RoundConfig
  isStarted : Bool
  startedAt : Option Nat
  createdAt : Nat
  gameMode : GameMode
  currentRound : Nat
  roundActive : Bool
  roundWinners : List String
  revealedHints : List Nat
  resetAt : Option Nat
  accessCode : Option String
  isActive : Bool
  expiresAt : Option Nat
  adminCreatedAt : Option Nat
  adminSessionId : Option String
  adminConnectedAt : Option Nat
deriving DecidableEq, Repr

/-- The player roster document: a JS object keyed by username, modelled as an
association list in insertion order (game.ts:257-264). -/
abbrev Roster : Type := List (String × Player)

/-- Lookup `players[username]` (JS property read; `undefined` is `none`). -/
def rosterFind (ps : Roster) (u : String) : Option Player :=
  match ps.find? (fun e => e.1 = u) with
  | some e => some e.2
  | none => none

/-- Assignment `players[username] = p`: replaces the existing entry in place
or appends a new one, as property assignment does on a JS object. -/
def rosterSet : Roster → String → Player → Roster
  | [], u, p => [(u, p)]
  | e :: rest, u, p =>
    if e.1 = u then (u, p) :: rest else e :: rosterSet rest u p

/-- Number of roster entries stored under a username (a well-formed JS object
has at most one). -/
def rosterCount (ps : Roster) (u : String) : Nat :=
  (ps.filter (fun e => e.1 = u)).length

/-- `s.toUpperCase()` modelled per character (exact on ASCII). -/
def jsToUpper (s : String) : String :=
  String.mk (s.data.map Char.toUpper)

/-- Membership in the character class `[A-Z]`. -/
def isUpperAlpha (c : Char) : Bool :=
  'A' ≤ c && c ≤ 'Z'

/-- The PUT solution normalization
`s.toUpperCase().replace(/[^A-Z]/g, '').slice(0, 6).padEnd(6, 'A')`
(game.ts:1089). -/
def normalizeSolution (s : String) : String :=
  let kept := ((s.data.map Char.toUpper).filter isUpperAlpha).take 6
  String.mk (kept ++ List.replicate (6 - kept.length) 'A')

/-- Round 1 of `DEFAULT_ROUNDS` (game.ts:204-208). -/
def defaultRound1 : RoundConfig :=
  { id := 1, name := "L\x27Éveil", solution := "AURORE", difficulty := "Facile",
    question := "Le moment où le soleil se lève et peint le ciel de couleurs chaudes...",
    hints := ["C\x27est un moment de la journée", "Ça commence par un A", "6 lettres, synonyme de lever du jour"] }

/-- Round 2 of `DEFAULT_ROUNDS` (game.ts:209-213). -/
def defaultRound2 : RoundConfig :=
  { id := 2, name := "Le Mystère", solution := "ENIGME", difficulty := "Moyen",
    question := "Une question sans réponse évidente, un puzzle pour l\x27esprit...",
    hints := ["Un casse-tête intellectuel", "Ça commence par un E", "Souvent posée par le Sphinx"] }

/-- Round 3 of `DEFAULT_ROUNDS` (game.ts:214-218). -/
def defaultRound3 : RoundConfig :=
  { id := 3, name := "La Quête", solution := "TRESOR", difficulty := "Moyen",
    question := "Ce que les pirates cherchaient au bout de la carte...",
    hints := ["Souvent enterré", "Ça commence par un T", "Coffre rempli d\x27or"] }

/-- Round 4 of `DEFAULT_ROUNDS` (game.ts:219-223). -/
def defaultRound4 : RoundConfig :=
  { id := 4, name := "Le Savoir", solution := "ESPRIT", difficulty := "Difficile",
    question := "Le siège de la pensée, là où naissent les idées...",
    hints := ["Lié à l\x27intelligence", "Ça commence par un E", "L\x27âme et le corps, et..."] }

/-- Round 5 of `DEFAULT_ROUNDS` (game.ts:224-228). -/
def defaultRound5 : RoundConfig :=
  { id := 5, name := "Le Pouvoir", solution := "FORCES", difficulty := "Difficile",
    question := "Ce qui permet de déplacer des montagnes, au pluriel...",
    hints := ["C\x27est au pluriel", "Ça commence par un F", "L\x27armée en a beaucoup"] }

/-- Round 6 of `DEFAULT_ROUNDS` (game.ts:229-233). -/
def defaultRound6 : RoundConfig :=
  { id := 6, name := "L\x27Ultime", solution := "VAINCU", difficulty := "Expert",
    question := "L\x27état de celui qui a perdu la bataille finale...",
    hints := ["Le contraire de vainqueur", "Ça commence par un V", "Participe passé"] }

/-- Default round list, `DEFAULT_ROUNDS` (game.ts:203-234). -/
def DEFAULT_ROUNDS : List RoundConfig :=
  [defaultRound1, defaultRound2, defaultRound3,
   defaultRound4, defaultRound5, defaultRound6]

/-- `createDefaultGameState()` (game.ts:266-286); `now` stands for
`Date.now()` / `new Date().toISOString()`. -/
def createDefaultGameState (now : Nat) : GameState :=
  { id := "game_" ++ toString now,
    rounds := DEFAULT_ROUNDS,
    isStarted := false,
    startedAt := none,
    createdAt := now,
    gameMode := GameMode.free,
    currentRound := 0,
    roundActive := false,
    roundWinners := [],
    revealedHints := [0, 0, 0, 0, 0, 0],
    resetAt := none,
    accessCode := none,
    isActive := false,
    expiresAt := none,
    adminCreatedAt := none,
    adminSessionId := none,
    adminConnectedAt := none }

/-- `createPlayer(username, avatar?)` (game.ts:288-301). -/
def createPlayer (username : String) (avatar : Option String) (now : Nat) : Player :=
  { username := username,
    joinedAt := now,
    currentRound := 0,
    roundsCompleted := [false, false, false, false, false, false],
    roundTimes := [0, 0, 0, 0, 0, 0],
    isFinished := false,
    finishedAt := none,
    roundStartTime := none,
    hasFoundCurrentRound := false,
    avatar := avatar }

/-- Outcome of one MongoDB `findOne` for a document: the document is present,
the document is absent, or the store is unreachable (driver throws). -/
inductive KvFetch (α : Type) where
  | found : α → KvFetch α
  | absent : KvFetch α
  | unreachable : KvFetch α

/-- `kvGet` (game.ts:112-121): returns `doc?.data || null`, and — because the
whole body is wrapped in `try/catch` that returns `null` — also returns `null`
when the store is unreachable. -/
def kvGet {α : Type} (fetch : KvFetch α) : Option α :=
  match fetch with
  | KvFetch.found a => some a
  | KvFetch.absent => none
  | KvFetch.unreachable => none

/-- `getGameState` (game.ts:245-251): a `null` from `kvGet` — whether the
document is absent or the store unreachable — is replaced by a fresh default
state. -/
def getGameState (fetch : KvFetch GameState) (now : Nat) : GameState :=
  match kvGet fetch with
  | some s => s
  | none => createDefaultGameState now

/-- Symbolic error results of the request handler (each corresponds to one
early `return res.status(...).json({ error: ... })` in game.ts). -/
inductive ApiError where
  | usernameRequired : ApiError
  | codeRequired : ApiError
  | missingFields : ApiError
  | invalidMode : ApiError
  | noActiveGame : ApiError
  | gameExpired : ApiError
  | invalidCode : ApiError
  | gameAlreadyStarted : ApiError
  | playerNotFound : ApiError
  | roundNotFound : ApiError
  | invalidRound : ApiError
  | notCurrentRound : ApiError
  | roundNotActive : ApiError
deriving DecidableEq, Repr

/-- The lazy 48h-TTL check
`gameState.expiresAt && new Date() > new Date(gameState.expiresAt)`
(game.ts:777 and game.ts:917). -/
def isExpired (gs : GameState) (now : Nat) : Bool :=
  match gs.expiresAt with
  | some e => now > e
  | none => false

/-- `case 'validate-code'` (game.ts:762-796).  Pure read: the handler performs
no store write on this path.  Success carries `gameState.id`. -/
def handleValidateCode (gs : GameState) (code : String) (now : Nat) :
    Except ApiError String :=
  if code = "" then Except.error ApiError.codeRequired
  else
    match gs.accessCode with
    | none => Except.error ApiError.noActiveGame
    | some ac =>
      if isExpired gs now then Except.error ApiError.gameExpired
      else if jsToUpper code ≠ ac then Except.error ApiError.invalidCode
      else Except.ok gs.id

/-- `case 'join'` (game.ts:902-958).  Returns the store contents after the
operation (unchanged on every failure path, since the code only reaches
`setPlayers` after all checks pass) and the response. -/
def handleJoin (gs : GameState) (ps : Roster) (username : String)
    (avatar : Option String) (now : Nat) :
    GameState × Roster × Except ApiError Player :=
  if username = "" then (gs, ps, Except.error ApiError.usernameRequired)
  else
    match gs.accessCode with
    | none => (gs, ps, Except.error ApiError.noActiveGame)
    | some _ =>
      if isExpired gs now then (gs, ps, Except.error ApiError.gameExpired)
      else if gs.isStarted ∧ rosterFind ps username = none then
        (gs, ps, Except.error ApiError.gameAlreadyStarted)
      else
        let newPlayer : Player :=
          match rosterFind ps username with
          | none => createPlayer username avatar now
          | some p =>
            match avatar with
            | some a => if a ≠ "" then { p with avatar := some a } else p
            | none => p
        (gs, rosterSet ps username newPlayer, Except.ok newPlayer)

/-- `case 'reconnect'` (game.ts:834-887).  Reads the roster; writes it only
when it recreates a missing player, which it does whenever `accessCode` is
non-null — with no expiry and no `isStarted` check on this path. -/
def handleReconnect (gs : GameState) (ps : Roster) (username : String)
    (now : Nat) : Roster × Except ApiError Player :=
  if username = "" then (ps, Except.error ApiError.usernameRequired)
  else
    match rosterFind ps username with
    | some p => (ps, Except.ok p)
    | none =>
      match gs.accessCode with
      | some _ =>
        let p := createPlayer username none now
        (rosterSet ps username p, Except.ok p)
      | none => (ps, Except.error ApiError.playerNotFound)

/-- Per-player reset performed by `case 'set-mode'` (game.ts:508-513).
Note what is not touched: `roundTimes`, `isFinished`, `finishedAt`. -/
def resetPlayerForModeSwitch (p : Player) : Player :=
  { p with
    currentRound := 0,
    roundStartTime := none,
    hasFoundCurrentRound := false,
    roundsCompleted := [false, false, false, false, false, false] }

/-- `case 'set-mode'` (game.ts:496-518). -/
def handleSetMode (gs : GameState) (ps : Roster) (mode : String) :
    GameState × Roster × Except ApiError String :=
  if mode ≠ "free" ∧ mode ≠ "controlled" then
    (gs, ps, Except.error ApiError.invalidMode)
  else
    let gm := if mode = "controlled" then GameMode.controlled else GameMode.free
    let gs' := { gs with
      gameMode := gm,
      currentRound := 0,
      roundActive := false,
      roundWinners := [],
      revealedHints := [0, 0, 0, 0, 0, 0] }
    let ps' := ps.map (fun e => (e.1, resetPlayerForModeSwitch e.2))
    (gs', ps', Except.ok mode)

/-- Response of `case 'check'`: `correct`, plus
`solution: isCorrect ? round.solution : undefined` — the field is absent
(`none`) on a wrong guess (game.ts:997-1000). -/
structure CheckResp where
  correct : Bool
  solution : Option String
deriving DecidableEq, Repr

/-- `case 'check'` (game.ts:974-1001).  Pure read, no store write. -/
def handleCheck (gs : GameState) (roundId : Nat) (solution : String) :
    Except ApiError CheckResp :=
  if roundId = 0 ∨ solution = "" then Except.error ApiError.missingFields
  else if gs.gameMode = GameMode.controlled ∧ roundId ≠ gs.currentRound then
    Except.error ApiError.notCurrentRound
  else if gs.gameMode = GameMode.controlled ∧ gs.roundActive = false then
    Except.error ApiError.roundNotActive
  else
    match gs.rounds.find? (fun r => r.id = roundId) with
    | none => Except.error ApiError.roundNotFound
    | some round =>
      let isCorrect := jsToUpper solution = round.solution
      Except.ok { correct := isCorrect,
                  solution := if isCorrect then some round.solution else none }

/-- Response of `case 'complete-round'`: the two branches return differently
shaped JSON (game.ts:1038-1044 vs game.ts:1058-1063). -/
inductive CompleteResp where
  | controlled : Nat → CompleteResp
  | free : Bool → Option Nat → CompleteResp
deriving DecidableEq, Repr

/-- `case 'complete-round'` (game.ts:1004-1065).  `timeSeconds` is the
optional body field; `now` is `Date.now()`.  The JS fallback
`timeSeconds || (...)` also fires on a supplied `0` (falsy), and
`Math.round((now - start) / 1000)` is `(now - start + 500) / 1000` on
naturals (the handler is never called with `now` before `roundStartTime`). -/
def handleCompleteRound (gs : GameState) (ps : Roster) (username : String)
    (roundId : Nat) (timeSeconds : Option Nat) (now : Nat) :
    GameState × Roster × Except ApiError CompleteResp :=
  if username = "" then (gs, ps, Except.error ApiError.usernameRequired)
  else
    match rosterFind ps username with
    | none => (gs, ps, Except.error ApiError.playerNotFound)
    | some player =>
      if roundId < 1 ∨ roundId > 6 then
        (gs, ps, Except.error ApiError.invalidRound)
      else
        let roundIndex := roundId - 1
        let fallbackTime : Nat :=
          match player.roundStartTime with
          | some st => (now - st + 500) / 1000
          | none => 60
        let time : Nat :=
          match timeSeconds with
          | some t => if t = 0 then fallbackTime else t
          | none => fallbackTime
        let player := { player with
          roundsCompleted := player.roundsCompleted.set roundIndex true,
          roundTimes := player.roundTimes.set roundIndex time }
        match gs.gameMode with
        | GameMode.controlled =>
          let player := { player with hasFoundCurrentRound := true }
          let winners :=
            if gs.roundWinners.contains username then gs.roundWinners
            else gs.roundWinners ++ [username]
          let gs' := { gs with roundWinners := winners }
          (gs', rosterSet ps username player,
            Except.ok (CompleteResp.controlled (winners.indexOf username + 1)))
        | GameMode.free =>
          let allCompleted := player.roundsCompleted.all (fun b => b)
          let player :=
            if allCompleted then
              { player with isFinished := true, finishedAt := some now }
            else
              { player with currentRound := roundIndex + 1,
                            roundStartTime := some now }
          (gs, rosterSet ps username player,
            Except.ok (CompleteResp.free player.isFinished
              (if player.isFinished then none else some (player.currentRound + 1))))

/-- Optional fields of the PUT body's `updates` object (the admin edits a
`RoundConfig`; game.ts:1076-1095).  A field that is `none` is absent from the
request and leaves the stored field untouched via the object spread. -/
structure RoundUpdates where
  name : Option String
  solution : Option String
  difficulty : Option String
  question : Option String
  hints : Option (List String)
deriving DecidableEq, Repr

/-- An `updates` object carrying only a `solution` field. -/
def solutionOnly (s : String) : RoundUpdates :=
  { name := none, solution := some s, difficulty := none, question := none,
    hints := none }

/-- The spread `{ ...gameState.rounds[roundIndex], ...updates }` preceded by
`if (updates.solution) { updates.solution = ...normalize... }`
(game.ts:1088-1095).  A supplied empty string is falsy, so it skips the
normalization guard — yet the spread still overwrites the stored solution
with it. -/
def applyRoundUpdates (r : RoundConfig) (u : RoundUpdates) : RoundConfig :=
  { id := r.id,
    name := u.name.getD r.name,
    solution :=
      match u.solution with
      | none => r.solution
      | some s => if s = "" then s else normalizeSolution s,
    difficulty := u.difficulty.getD r.difficulty,
    question := u.question.getD r.question,
    hints := u.hints.getD r.hints }

/-- `rounds.findIndex(r => r.id === roundId)` followed by in-place update of
the found slot: the first round with a matching id is replaced. -/
def updateRoundList (rs : List RoundConfig) (roundId : Nat) (u : RoundUpdates) :
    Option (List RoundConfig × RoundConfig) :=
  match rs with
  | [] => none
  | r :: rest =>
    if r.id = roundId then
      let r' := applyRoundUpdates r u
      some (r' :: rest, r')
    else
      match updateRoundList rest roundId u with
      | none => none
      | some (rest', r') => some (r :: rest', r')

/-- The PUT branch of the handler, `updateRoundConfig` (game.ts:1075-1100).
`!roundId` rejects a missing body field and also the (falsy) id `0`. -/
def handlePut (gs : GameState) (roundId : Nat) (updates : RoundUpdates) :
    GameState × Except ApiError RoundConfig :=
  if roundId = 0 then (gs, Except.error ApiError.missingFields)
  else
    match updateRoundList gs.rounds roundId updates with
    | none => (gs, Except.error ApiError.roundNotFound)
    | some (rounds', r') =>
      ({ gs with rounds := rounds' }, Except.ok r')

/-- A state-changing POST operation as the handler structures it: read both
store documents (game.ts:491-492), compute synchronously, write both back.
The two reads and the final writes are the operation's suspension points. -/
structure Mutation where
  compute : GameState → Roster → GameState × Roster

/-- The store effect of one `complete-round` POST (response discarded). -/
def completeRoundMutation (username : String) (roundId : Nat)
    (timeSeconds : Option Nat) (now : Nat) : Mutation :=
  { compute := fun gs ps =>
      let out := handleCompleteRound gs ps username roundId timeSeconds now
      (out.1, out.2.1) }

/-- Serialized execution of two mutations: the second one's reads happen
after the first one's writes.  This is the schedule `withLock`
(game.ts:352-374) enforces for two concurrently submitted requests: the
second `withLock` call awaits `operationLock` before running its operation. -/
def runSerialized (m1 m2 : Mutation) (gs : GameState) (ps : Roster) :
    GameState × Roster :=
  let s1 := m1.compute gs ps
  m2.compute s1.1 s1.2

/-- Interleaved execution of two mutations under the code as written: the
POST dispatch (game.ts:489-493) invokes each action's read-modify-write cycle
directly — `withLock` is defined (game.ts:352) but has no call site — so the
event loop may serve the second request's store reads between the first
request's reads and its writes.  Both operations then compute from the same
initial store contents and the second write overwrites the first. -/
def runInterleaved (m1 m2 : Mutation) (gs : GameState) (ps : Roster) :
    GameState × Roster :=
  let _s1 := m1.compute gs ps
  m2.compute gs ps

/-! Concrete store contents used to exercise the operations. -/

/-- A freshly created game in its lobby phase: access code set, active, not
yet started, far from its 48h expiry. -/
def gLobby : GameState := { createDefaultGameState 500 with
  accessCode := some "GAME",
  isActive := true,
  expiresAt := some 10000000,
  adminCreatedAt := some 500 }

/-- The lobby game, started in controlled mode with round 1 launched. -/
def gControlled : GameState := { gLobby with
  isStarted := true,
  startedAt := some 900,
  gameMode := GameMode.controlled,
  currentRound := 1,
  roundActive := true }

/-- The lobby game, started in free mode. -/
def gFree : GameState := { gLobby with
  isStarted := true,
  startedAt := some 900 }

/-- A started controlled game whose 48h TTL is already past. -/
def gStartedExpired : GameState := { gControlled with expiresAt := some 100 }

/-- Roster with the three players A, B and C of the race scenario. -/
def psABC : Roster :=
  [("A", createPlayer "A" none 600),
   ("B", createPlayer "B" none 601),
   ("C", createPlayer "C" none 602)]

/-- Race scenario, step 1: A completes round 1 of the controlled game. -/
def c4step1 : GameState × Roster × Except ApiError CompleteResp :=
  handleCompleteRound gControlled psABC "A" 1 (some 10) 1000

/-- Race scenario, step 2: B completes the same round next. -/
def c4step2 : GameState × Roster × Except ApiError CompleteResp :=
  handleCompleteRound c4step1.1 c4step1.2.1 "B" 1 (some 20) 1100

/-- Race scenario, step 3: C completes the same round last. -/
def c4step3 : GameState × Roster × Except ApiError CompleteResp :=
  handleCompleteRound c4step2.1 c4step2.2.1 "C" 1 (some 30) 1200

/-- Race scenario, step 4: A retries the already-won round. -/
def c4step4 : GameState × Roster × Except ApiError CompleteResp :=
  handleCompleteRound c4step3.1 c4step3.2.1 "A" 1 (some 40) 1300

/-- Free-mode roster holding the single player P. -/
def psP : Roster := [("P", createPlayer "P" none 600)]

/-- Free-mode progression: P completes rounds 1 through 6 in order. -/
def c8step : Nat → GameState × Roster × Except ApiError CompleteResp
  | 0 => (gFree, psP, Except.error ApiError.invalidRound)
  | n + 1 =>
    let prev := c8step n
    handleCompleteRound prev.1 prev.2.1 "P" (n + 1) (some 5) (1000 + 100 * n)

/-- A player with recorded progress: round 1 completed in 7 seconds. -/
def pTimed : Player := { createPlayer "A" none 600 with
  roundTimes := [7, 0, 0, 0, 0, 0],
  roundsCompleted := [true, false, false, false, false, false],
  currentRound := 1 }

/-- First join of a fresh username in the lobby. -/
def c6join1 : GameState × Roster × Except ApiError Player :=
  handleJoin gLobby [] "u" (some "cat") 100

/-- Second join of the same username, supplying a new avatar. -/
def c6join2 : GameState × Roster × Except ApiError Player :=
  handleJoin gLobby c6join1.2.1 "u" (some "dog") 200

/-- Rejoin of a player who already has recorded progress. -/
def c6rejoin : GameState × Roster × Except ApiError Player :=
  handleJoin gFree [("A", pTimed)] "A" (some "dog") 300

/-- The store effect of `complete-round` submitted by A. -/
def mutA : Mutation := completeRoundMutation "A" 1 (some 30) 2000

/-- The store effect of `complete-round` submitted by B. -/
def mutB : Mutation := completeRoundMutation "B" 1 (some 42) 2500

/-! Helper lemmas about the roster and the solution normalization. -/

theorem rosterFind_rosterSet_self (ps : Roster) (u : String) (p : Player) :
    rosterFind (rosterSet ps u p) u = some p := by
  induction ps with
  | nil => simp [rosterFind, rosterSet]
  | cons e rest ih =>
    by_cases h : e.1 = u
    · simp [rosterFind, rosterSet, h]
    · simpa [rosterFind, rosterSet, h] using ih

theorem rosterCount_rosterSet (ps : Roster) (u : String) (p : Player) :
    rosterCount (rosterSet ps u p) u = max (rosterCount ps u) 1 := by
  induction ps with
  | nil => simp [rosterCount, rosterSet]
  | cons e rest ih =>
    by_cases h : e.1 = u
    · simp [rosterCount, rosterSet, h]
    · simpa [rosterCount, rosterSet, h] using ih

theorem rosterCount_eq_zero (ps : Roster) (u : String)
    (h : rosterFind ps u = none) : rosterCount ps u = 0 := by
  induction ps with
  | nil => simp [rosterCount]
  | cons e rest ih =>
    by_cases he : e.1 = u
    · simp [rosterFind, he] at h
    · simp [rosterFind, he] at h
      simpa [rosterCount, he] using ih (by simpa [rosterFind] using h)

theorem normalizeSolution_length (s : String) :
    (normalizeSolution s).length = 6 := by
  simp [normalizeSolution, String.length]

theorem normalizeSolution_upperAlpha (s : String) :
    ∀ c ∈ (normalizeSolution s).data, isUpperAlpha c = true := by
  intro c hc
  simp [normalizeSolution] at hc
  rcases hc with hc | hc
  · exact (List.mem_filter.mp (List.mem_of_mem_take hc)).2
  · simp [hc.2]
    decide

theorem applyRoundUpdates_id (r : RoundConfig) (u : RoundUpdates) :
    (applyRoundUpdates r u).id = r.id := rfl

theorem applyRoundUpdates_solution (r : RoundConfig) (u : RoundUpdates)
    (s : String) (hs : u.solution = some s) (hne : s ≠ "") :
    (applyRoundUpdates r u).solution = normalizeSolution s := by
  simp [applyRoundUpdates, hs, hne]

theorem updateRoundList_shape (rs : List RoundConfig) (rid : Nat)
    (u : RoundUpdates) (rs' : List RoundConfig) (r' : RoundConfig)
    (h : updateRoundList rs rid u = some (rs', r')) :
    ∃ r, r ∈ rs ∧ r' = applyRoundUpdates r u := by
  induction rs generalizing rs' with
  | nil => simp [updateRoundList] at h
  | cons r rest ih =>
    by_cases hid : r.id = rid
    · simp [updateRoundList, hid] at h
      exact ⟨r, by simp, h.2.symm⟩
    · simp only [updateRoundList, hid, if_false] at h
      match hrec : updateRoundList rest rid u with
      | none => rw [hrec] at h; simp at h
      | some (rest', r'') =>
        rw [hrec] at h
        simp at h
        obtain ⟨q, hq, hq'⟩ := ih rest' (by rw [hrec, h.2])
        exact ⟨q, by simp [hq], hq'⟩

theorem updateRoundList_find (rs : List RoundConfig) (rid : Nat)
    (u : RoundUpdates) (rs' : List RoundConfig) (r' : RoundConfig)
    (h : updateRoundList rs rid u = some (rs', r')) :
    rs'.find? (fun x => x.id = rid) = some r' := by
  induction rs generalizing rs' with
  | nil => simp [updateRoundList] at h
  | cons r rest ih =>
    by_cases hid : r.id = rid
    · simp [updateRoundList, hid] at h
      rw [← h.1]
      have : (applyRoundUpdates r u).id = rid := by rw [applyRoundUpdates_id, hid]
      simp [List.find?, this, ← h.2]
    · simp only [updateRoundList, hid, if_false] at h
      match hrec : updateRoundList rest rid u with
      | none => rw [hrec] at h; simp at h
      | some (rest', r'') =>
        rw [hrec] at h
        simp at h
        rw [← h.1]
        have hfind := ih rest' (by rw [hrec, h.2])
        simp [List.find?, hid, hfind]



/-- C3: the `check` operation reveals the stored solution exactly when the
upper-cased attempt equals it (on a valid request the response's `solution`
field is `some r.solution` if the attempt matches and absent otherwise); in
controlled mode it fails with `NotCurrentRound` whenever `roundId` differs
from `currentRound` and with `RoundNotActive` whenever the round is inactive,
and those error responses carry no solution field at all. -/
theorem C3check (gs : GameState) (rid : Nat) (att : String) :
    (∀ r, gs.rounds.find? (fun x => x.id = rid) = some r → rid ≠ 0 → att ≠ "" →
      (gs.gameMode = GameMode.controlled → rid = gs.currentRound ∧ gs.roundActive = true) →
      handleCheck gs rid att =
        Except.ok { correct := decide (jsToUpper att = r.solution),
                    solution := if jsToUpper att = r.solution then some r.solution else none }) ∧
    (gs.gameMode = GameMode.controlled → rid ≠ 0 → att ≠ "" → rid ≠ gs.currentRound →
      handleCheck gs rid att = Except.error ApiError.notCurrentRound) ∧
    (gs.gameMode = GameMode.controlled → rid ≠ 0 → att ≠ "" → rid = gs.currentRound →
      gs.roundActive = false →
      handleCheck gs rid att = Except.error ApiError.roundNotActive) := by
  refine ⟨?_, ?_, ?_⟩
  · intro r hfound hrid hatt hctl
    rw [handleCheck, if_neg (by simp [hrid, hatt]),
        if_neg (by rintro ⟨hc, hne⟩; exact hne (hctl hc).1),
        if_neg (by rintro ⟨hc, hra⟩; rw [(hctl hc).2] at hra; cases hra),
        hfound]
  · intro hc hrid hatt hne
    rw [handleCheck, if_neg (by simp [hrid, hatt]), if_pos ⟨hc, hne⟩]
  · intro hc hrid hatt heq hra
    rw [handleCheck, if_neg (by simp [hrid, hatt]),
        if_neg (by rintro ⟨_, hne⟩; exact hne heq), if_pos ⟨hc, hra⟩]

/-- Witness for C3 at concrete inputs: a correct guess on the current active
controlled round, a guess on a non-current round, and a guess on an inactive
round. -/
theorem C3check_witness :
    handleCheck gControlled 1 "aurore" =
      Except.ok { correct := decide (jsToUpper "aurore" = defaultRound1.solution),
                  solution := if jsToUpper "aurore" = defaultRound1.solution
                              then some defaultRound1.solution else none } ∧
    handleCheck gControlled 2 "enigme" = Except.error ApiError.notCurrentRound ∧
    handleCheck { gControlled with roundActive := false } 1 "aurore" =
      Except.error ApiError.roundNotActive :=
  ⟨(C3check gControlled 1 "aurore").1 defaultRound1 (by decide) (by decide) (by decide)
      (fun _ => by decide),
   (C3check gControlled 2 "enigme").2.1 (by decide) (by decide) (by decide) (by decide),
   (C3check { gControlled with roundActive := false } 1 "aurore").2.2 (by decide) (by decide)
      (by decide) (by decide) (by decide)⟩

/-- C4: in controlled mode a successful `complete-round` appends the username
to `roundWinners` only if it is not already present (a repeat call leaves the
list unchanged) and returns the player's 1-based position in the list; the
concrete race A, then B, then C on the same active round produces
`roundWinners = [A, B, C]` with positions 1, 2 and 3, and A's retry leaves a
single entry for A and position 1. -/
theorem C4winners :
    (∀ (gs : GameState) (ps : Roster) (u : String) (p : Player)
       (rid : Nat) (ts : Option Nat) (now : Nat),
      gs.gameMode = GameMode.controlled → u ≠ "" →
      rosterFind ps u = some p → 1 ≤ rid → rid ≤ 6 →
      ((handleCompleteRound gs ps u rid ts now).1.roundWinners =
          (if gs.roundWinners.contains u then gs.roundWinners
           else gs.roundWinners ++ [u]) ∧
       (handleCompleteRound gs ps u rid ts now).2.2 =
         Except.ok (CompleteResp.controlled
           ((handleCompleteRound gs ps u rid ts now).1.roundWinners.indexOf u + 1)) ∧
       (gs.roundWinners.contains u = true →
         (handleCompleteRound gs ps u rid ts now).1.roundWinners = gs.roundWinners))) ∧
    (c4step1.2.2 = Except.ok (CompleteResp.controlled 1) ∧
     c4step2.2.2 = Except.ok (CompleteResp.controlled 2) ∧
     c4step3.2.2 = Except.ok (CompleteResp.controlled 3) ∧
     c4step3.1.roundWinners = ["A", "B", "C"] ∧
     c4step4.1.roundWinners = ["A", "B", "C"] ∧
     c4step4.1.roundWinners.count "A" = 1 ∧
     c4step4.2.2 = Except.ok (CompleteResp.controlled 1)) := by
  refine ⟨?_, rfl, rfl, rfl, rfl, rfl, rfl, rfl⟩
  intro gs ps u p rid ts now hmode hu hfind h1 h6
  have hrid : ¬(rid < 1 ∨ rid > 6) := by omega
  simp only [handleCompleteRound, if_neg hu, hfind, if_neg hrid, hmode]
  refine ⟨trivial, trivial, ?_⟩
  intro hc
  simp [hc]
  simpa using hc

/-- Witness for C4's universally quantified part at player A's first
completion of round 1. -/
theorem C4winners_witness :
    (handleCompleteRound gControlled psABC "A" 1 (some 10) 1000).1.roundWinners =
      (if gControlled.roundWinners.contains "A" then gControlled.roundWinners
       else gControlled.roundWinners ++ ["A"]) ∧
    (handleCompleteRound gControlled psABC "A" 1 (some 10) 1000).2.2 =
      Except.ok (CompleteResp.controlled
        ((handleCompleteRound gControlled psABC "A" 1 (some 10) 1000).1.roundWinners.indexOf "A" + 1)) ∧
    (gControlled.roundWinners.contains "A" = true →
      (handleCompleteRound gControlled psABC "A" 1 (some 10) 1000).1.roundWinners =
        gControlled.roundWinners) :=
  C4winners.1 gControlled psABC "A" (createPlayer "A" none 600) 1 (some 10) 1000
    rfl (by decide) rfl (by decide) (by decide)

/-- C8: in free mode, completing the last missing round sets `isFinished` and
answers `nextRound = null`, while completing any other round advances the
player's `currentRound` cursor to `roundIndex + 1`, resets `roundStartTime`
to now, and answers the next round number; the concrete player P who
completes rounds 1..5 (but not 6) has `isFinished = false` and cursor 5, and
completing round 6 flips `isFinished`. -/
theorem C8free :
    (∀ (gs : GameState) (ps : Roster) (u : String) (p : Player)
       (rid : Nat) (ts : Option Nat) (now : Nat),
      gs.gameMode = GameMode.free → u ≠ "" →
      rosterFind ps u = some p → 1 ≤ rid → rid ≤ 6 → p.isFinished = false →
      (((p.roundsCompleted.set (rid - 1) true).all (fun b => b) = true →
         (handleCompleteRound gs ps u rid ts now).2.2 =
           Except.ok (CompleteResp.free true none) ∧
         ((rosterFind (handleCompleteRound gs ps u rid ts now).2.1 u).map
            (fun q => q.isFinished)) = some true) ∧
       ((p.roundsCompleted.set (rid - 1) true).all (fun b => b) = false →
         (handleCompleteRound gs ps u rid ts now).2.2 =
           Except.ok (CompleteResp.free false (some (rid + 1))) ∧
         ((rosterFind (handleCompleteRound gs ps u rid ts now).2.1 u).map
            (fun q => (q.currentRound, q.roundStartTime, q.isFinished))) =
           some (rid, some now, false)))) ∧
    (((rosterFind (c8step 5).2.1 "P").map (fun q => (q.isFinished, q.currentRound))) =
       some (false, 5) ∧
     (c8step 5).2.2 = Except.ok (CompleteResp.free false (some 6)) ∧
     (c8step 6).2.2 = Except.ok (CompleteResp.free true none) ∧
     ((rosterFind (c8step 6).2.1 "P").map (fun q => q.isFinished)) = some true) := by
  refine ⟨?_, rfl, rfl, rfl, rfl⟩
  intro gs ps u p rid ts now hmode hu hfind h1 h6 hfin
  have hrid : ¬(rid < 1 ∨ rid > 6) := by omega
  have hr1 : rid - 1 + 1 = rid := by omega
  constructor
  · intro hdone
    simp only [handleCompleteRound, if_neg hu, hfind, if_neg hrid, hmode]
    simp [hdone, hfin, hr1, rosterFind_rosterSet_self]
  · intro hdone
    simp only [handleCompleteRound, if_neg hu, hfind, if_neg hrid, hmode]
    simp [hdone, hfin, hr1, rosterFind_rosterSet_self]

/-- Witness for C8's universally quantified part at P's completion of round 1
from a fresh roster. -/
theorem C8free_witness :
    ((createPlayer "P" none 600).roundsCompleted.set (1 - 1) true).all (fun b => b) = false ∧
    ((handleCompleteRound gFree psP "P" 1 (some 5) 1000).2.2 =
      Except.ok (CompleteResp.free false (some 2)) ∧
     ((rosterFind (handleCompleteRound gFree psP "P" 1 (some 5) 1000).2.1 "P").map
        (fun q => (q.currentRound, q.roundStartTime, q.isFinished))) =
       some (1, some 1000, false)) :=
  ⟨by decide,
   (C8free.1 gFree psP "P" (createPlayer "P" none 600) 1 (some 5) 1000
      rfl (by decide) rfl (by decide) (by decide) rfl).2 (by decide)⟩

/-- C6: `join` is idempotent per username — rejoining with an existing
username stores exactly the old record with only the avatar replaced (when a
non-empty one is supplied), so `roundsCompleted` survives and no duplicate
roster entry appears; the concrete double join of `u` keeps one entry with
the second avatar, and the rejoin of the progressed player A keeps A's
progress. -/
theorem C6joinIdem :
    (∀ (gs : GameState) (ps : Roster) (u : String) (p : Player)
       (a : String) (now : Nat) (c : String),
      gs.accessCode = some c → isExpired gs now = false → u ≠ "" → a ≠ "" →
      rosterFind ps u = some p →
      (handleJoin gs ps u (some a) now =
        (gs, rosterSet ps u { p with avatar := some a },
         Except.ok { p with avatar := some a }) ∧
       ({ p with avatar := some a }).roundsCompleted = p.roundsCompleted ∧
       rosterCount (rosterSet ps u { p with avatar := some a }) u =
         max (rosterCount ps u) 1)) ∧
    (rosterCount c6join2.2.1 "u" = 1 ∧
     rosterFind c6join2.2.1 "u" =
       some { createPlayer "u" (some "cat") 100 with avatar := some "dog" } ∧
     rosterFind c6rejoin.2.1 "A" = some { pTimed with avatar := some "dog" } ∧
     ({ pTimed with avatar := some "dog" }).roundsCompleted = pTimed.roundsCompleted) := by
  refine ⟨?_, rfl, rfl, rfl, rfl⟩
  intro gs ps u p a now c hacc hexp hu ha hfind
  refine ⟨?_, rfl, rosterCount_rosterSet ps u _⟩
  simp only [handleJoin, if_neg hu, hacc, hexp, hfind]
  simp [ha]

/-- Witness for C6's universally quantified part: the progressed player
`pTimed` rejoins with a new avatar. -/
theorem C6joinIdem_witness :
    handleJoin gFree [("A", pTimed)] "A" (some "dog") 300 =
      (gFree, rosterSet [("A", pTimed)] "A" { pTimed with avatar := some "dog" },
       Except.ok { pTimed with avatar := some "dog" }) ∧
    ({ pTimed with avatar := some "dog" }).roundsCompleted = pTimed.roundsCompleted ∧
    rosterCount (rosterSet [("A", pTimed)] "A" { pTimed with avatar := some "dog" }) "A" =
      max (rosterCount [("A", pTimed)] "A") 1 :=
  C6joinIdem.1 gFree [("A", pTimed)] "A" pTimed "dog" 300 "GAME"
    rfl rfl (by decide) (by decide) rfl

/-- C7: with `expiresAt` in the past both `join` and `validate-code` fail
with `GameExpired` for every username and every (even matching) code, and on
a started game `join` fails with `GameAlreadyStarted` exactly for usernames
not in the roster while an existing player's join succeeds; each failure
returns the store contents unchanged. -/
theorem C7gates :
    (∀ (gs : GameState) (ps : Roster) (u : String) (av : Option String)
       (code : String) (now : Nat) (c : String) (e : Nat),
      gs.accessCode = some c → gs.expiresAt = some e → e < now → u ≠ "" → code ≠ "" →
      (handleJoin gs ps u av now = (gs, ps, Except.error ApiError.gameExpired) ∧
       handleValidateCode gs code now = Except.error ApiError.gameExpired)) ∧
    (∀ (gs : GameState) (ps : Roster) (u : String) (av : Option String)
       (now : Nat) (c : String),
      gs.accessCode = some c → isExpired gs now = false → gs.isStarted = true → u ≠ "" →
      ((rosterFind ps u = none →
         handleJoin gs ps u av now = (gs, ps, Except.error ApiError.gameAlreadyStarted)) ∧
       (∀ p, rosterFind ps u = some p →
         handleJoin gs ps u none now = (gs, rosterSet ps u p, Except.ok p)))) := by
  constructor
  · intro gs ps u av code now c e hacc hexp hlt hu hcode
    have hexpd : isExpired gs now = true := by
      simp [isExpired, hexp]
      omega
    constructor
    · simp [handleJoin, if_neg hu, hacc, hexpd]
    · simp [handleValidateCode, if_neg hcode, hacc, hexpd]
  · intro gs ps u av now c hacc hexp hst hu
    constructor
    · intro hnone
      simp [handleJoin, if_neg hu, hacc, hexp, hst, hnone]
    · intro p hfind
      simp [handleJoin, if_neg hu, hacc, hexp, hst, hfind]

/-- Witness for C7 on the expired started game (join and a matching code) and
on the running game (late joiner Z rejected, existing player A accepted). -/
theorem C7gates_witness :
    (handleJoin gStartedExpired psABC "Z" none 1000 =
       (gStartedExpired, psABC, Except.error ApiError.gameExpired) ∧
     handleValidateCode gStartedExpired "game" 1000 = Except.error ApiError.gameExpired) ∧
    (handleJoin gControlled psABC "Z" none 1000 =
       (gControlled, psABC, Except.error ApiError.gameAlreadyStarted)) ∧
    (handleJoin gControlled psABC "A" none 1000 =
       (gControlled, rosterSet psABC "A" (createPlayer "A" none 600),
        Except.ok (createPlayer "A" none 600))) :=
  ⟨C7gates.1 gStartedExpired psABC "Z" none "game" 1000 "GAME" 100
     rfl rfl (by decide) (by decide) (by decide),
   (C7gates.2 gControlled psABC "Z" none 1000 "GAME" rfl rfl rfl (by decide)).1 rfl,
   (C7gates.2 gControlled psABC "A" none 1000 "GAME" rfl rfl rfl (by decide)).2
     (createPlayer "A" none 600) rfl⟩

/-- C10: for a username absent from the roster, `reconnect` creates a fresh
zero-progress player whenever `accessCode` is non-null — the branch has no
`isStarted` and no expiry check — and fails with `PlayerNotFound` exactly
when `accessCode` is null. -/
theorem C10reconnect :
    ∀ (gs : GameState) (ps : Roster) (u : String) (now : Nat),
      u ≠ "" → rosterFind ps u = none →
      ((∀ c, gs.accessCode = some c →
         handleReconnect gs ps u now =
           (rosterSet ps u (createPlayer u none now),
            Except.ok (createPlayer u none now)) ∧
         (createPlayer u none now).currentRound = 0 ∧
         (createPlayer u none now).roundsCompleted =
           [false, false, false, false, false, false] ∧
         (createPlayer u none now).isFinished = false) ∧
       (gs.accessCode = none →
         handleReconnect gs ps u now = (ps, Except.error ApiError.playerNotFound))) := by
  intro gs ps u now hu hnone
  constructor
  · intro c hacc
    refine ⟨?_, rfl, rfl, rfl⟩
    simp [handleReconnect, if_neg hu, hnone, hacc]
  · intro hacc
    simp [handleReconnect, if_neg hu, hnone, hacc]

/-- Witness for C10: the unknown player Z reconnects into a started and
already expired game, and is rejected only when no game exists. -/
theorem C10reconnect_witness :
    (handleReconnect gStartedExpired psABC "Z" 1000 =
       (rosterSet psABC "Z" (createPlayer "Z" none 1000),
        Except.ok (createPlayer "Z" none 1000)) ∧
     (createPlayer "Z" none 1000).currentRound = 0 ∧
     (createPlayer "Z" none 1000).roundsCompleted =
       [false, false, false, false, false, false] ∧
     (createPlayer "Z" none 1000).isFinished = false) ∧
    handleReconnect (createDefaultGameState 0) [] "Z" 1000 =
      ([], Except.error ApiError.playerNotFound) :=
  ⟨(C10reconnect gStartedExpired psABC "Z" 1000 (by decide) rfl).1 "GAME" rfl,
   (C10reconnect (createDefaultGameState 0) [] "Z" 1000 (by decide) rfl).2 rfl⟩

/-- C5 counterexample: a PUT whose `updates.solution` is the empty string is
falsy, so it skips the normalization guard, yet the object spread still
overwrites the stored solution — the stored value becomes `""`, whose length
is 0, not 6. -/
theorem C5norm_counterexample :
    ((handlePut (createDefaultGameState 0) 1 (solutionOnly "")).1.rounds.find?
       (fun r => r.id = 1)).map (fun r => r.solution) = some "" ∧
    ¬ (("" : String).length = 6) := by
  constructor
  · rfl
  · decide

/-- C5 as amended: for every NON-EMPTY input string supplied as the solution
of a round update, the solution stored by the PUT handler has length exactly
6 and consists only of characters A through Z. -/
theorem C5norm (gs : GameState) (rid : Nat) (u : RoundUpdates) (s : String)
    (gs' : GameState) (r' : RoundConfig)
    (h : handlePut gs rid u = (gs', Except.ok r'))
    (hs : u.solution = some s) (hne : s ≠ "") :
    r'.solution.length = 6 ∧
    (∀ ch ∈ r'.solution.data, isUpperAlpha ch = true) ∧
    gs'.rounds.find? (fun x => x.id = rid) = some r' := by
  by_cases hrid : rid = 0
  · simp [handlePut, hrid] at h
  · simp only [handlePut, if_neg hrid] at h
    match hUL : updateRoundList gs.rounds rid u with
    | none => rw [hUL] at h; simp at h
    | some (rs', rr) =>
      rw [hUL] at h
      simp at h
      obtain ⟨hgs, hr⟩ := h
      obtain ⟨q, _, hq⟩ := updateRoundList_shape gs.rounds rid u rs' rr hUL
      have hsol : rr.solution = normalizeSolution s := by
        rw [hq]; exact applyRoundUpdates_solution q u s hs hne
      refine ⟨?_, ?_, ?_⟩
      · rw [← hr, hsol]; exact normalizeSolution_length s
      · rw [← hr, hsol]; exact normalizeSolution_upperAlpha s
      · rw [← hgs, ← hr]
        exact updateRoundList_find gs.rounds rid u rs' rr hUL

/-- Witness for C5 (amended) at the spec's own example input
`"treasurex!"`, stored as `"TREASU"`. -/
theorem C5norm_witness :
    (((handlePut (createDefaultGameState 0) 3 (solutionOnly "treasurex!")).1.rounds.find?
        (fun x => x.id = 3)).map (fun r => r.solution) = some "TREASU") ∧
    (((handlePut (createDefaultGameState 0) 3 (solutionOnly "treasurex!")).2).map
       (fun r => r.solution.length)) = Except.ok 6 := by
  have h := C5norm (createDefaultGameState 0) 3 (solutionOnly "treasurex!") "treasurex!"
    (handlePut (createDefaultGameState 0) 3 (solutionOnly "treasurex!")).1
    { defaultRound3 with solution := "TREASU" } rfl rfl (by decide)
  exact ⟨by rw [h.2.2]; rfl, by rfl⟩

/-- C9 counterexample: `set-mode` leaves each player's `roundTimes` exactly
as recorded (here `[7,0,0,0,0,0]`), so the per-round timing records are NOT
reset as the claim states. -/
theorem C9modeReset_counterexample :
    ((handleSetMode gControlled [("A", pTimed)] "free").2.1.map
       (fun e => (e.1, e.2.roundTimes))) = [("A", [7, 0, 0, 0, 0, 0])] ∧
    pTimed.roundTimes = [7, 0, 0, 0, 0, 0] ∧
    ¬ ([7, 0, 0, 0, 0, 0] = ([0, 0, 0, 0, 0, 0] : List Nat)) := by
  refine ⟨rfl, rfl, by decide⟩

/-- C9 as amended: `set-mode`, for either target mode, resets the game's
`currentRound`, `roundActive`, `roundWinners` and `revealedHints`, and resets
every player's completion records, current-round cursor, round start time and
`hasFoundCurrentRound` flag — but leaves each player's `roundTimes` (and
`isFinished`/`finishedAt`) untouched. -/
theorem C9modeReset (gs : GameState) (ps : Roster) (mode : String)
    (hmode : mode = "free" ∨ mode = "controlled") :
    (handleSetMode gs ps mode).1.currentRound = 0 ∧
    (handleSetMode gs ps mode).1.roundActive = false ∧
    (handleSetMode gs ps mode).1.roundWinners = [] ∧
    (handleSetMode gs ps mode).1.revealedHints = [0, 0, 0, 0, 0, 0] ∧
    (handleSetMode gs ps mode).2.1 =
      ps.map (fun e => (e.1, resetPlayerForModeSwitch e.2)) ∧
    (∀ p : Player,
      (resetPlayerForModeSwitch p).currentRound = 0 ∧
      (resetPlayerForModeSwitch p).roundStartTime = none ∧
      (resetPlayerForModeSwitch p).hasFoundCurrentRound = false ∧
      (resetPlayerForModeSwitch p).roundsCompleted =
        [false, false, false, false, false, false] ∧
      (resetPlayerForModeSwitch p).roundTimes = p.roundTimes ∧
      (resetPlayerForModeSwitch p).isFinished = p.isFinished) := by
  have hval : ¬ (mode ≠ "free" ∧ mode ≠ "controlled") := by
    rcases hmode with h | h <;> simp [h]
  simp only [handleSetMode, if_neg hval]
  exact ⟨trivial, trivial, trivial, trivial, trivial,
    fun p => ⟨rfl, rfl, rfl, rfl, rfl, rfl⟩⟩

/-- Witness for C9 (amended) on the controlled game with the timed player. -/
theorem C9modeReset_witness :
    (handleSetMode gControlled [("A", pTimed)] "free").1.currentRound = 0 ∧
    (handleSetMode gControlled [("A", pTimed)] "free").1.roundActive = false ∧
    (handleSetMode gControlled [("A", pTimed)] "free").1.roundWinners = [] ∧
    (handleSetMode gControlled [("A", pTimed)] "free").1.revealedHints =
      [0, 0, 0, 0, 0, 0] ∧
    (handleSetMode gControlled [("A", pTimed)] "free").2.1 =
      [("A", pTimed)].map (fun e => (e.1, resetPlayerForModeSwitch e.2)) ∧
    (∀ p : Player,
      (resetPlayerForModeSwitch p).currentRound = 0 ∧
      (resetPlayerForModeSwitch p).roundStartTime = none ∧
      (resetPlayerForModeSwitch p).hasFoundCurrentRound = false ∧
      (resetPlayerForModeSwitch p).roundsCompleted =
        [false, false, false, false, false, false] ∧
      (resetPlayerForModeSwitch p).roundTimes = p.roundTimes ∧
      (resetPlayerForModeSwitch p).isFinished = p.isFinished) :=
  C9modeReset gControlled [("A", pTimed)] "free" (Or.inl rfl)

/-- C2: when the backing store is unreachable, `kvGet` swallows the driver
error into `null`, so `getGameState` answers with a freshly constructed
default state — `accessCode = null`, `isActive = false` — in place of
whatever is stored, i.e. exactly the "no game exists" answer the claim says
is never produced (the claim is right about the intent and wrong about the
code: this theorem evaluates the code at the failing input). -/
theorem C2kvDefault (now : Nat) :
    getGameState KvFetch.unreachable now = createDefaultGameState now ∧
    (getGameState KvFetch.unreachable now).accessCode = none ∧
    (getGameState KvFetch.unreachable now).isActive = false ∧
    getGameState (KvFetch.found gControlled) now = gControlled :=
  ⟨rfl, rfl, rfl, rfl⟩

/-- C1: the POST dispatch never wraps an action in `withLock` (the function
has no call site), so the cooperative scheduler may run two `complete-round`
read-modify-write cycles interleaved; from the same controlled-round store,
the serialized schedule (which the lock would force) yields
`roundWinners = [A, B]` with both completions recorded, while the permitted
interleaved schedule yields `[B]` and silently loses A's completion — the
two executions differ, refuting the claim that the second mutation's reads
begin only after the first completes. -/
theorem C1noLock :
    (runSerialized mutA mutB gControlled psABC).1.roundWinners = ["A", "B"] ∧
    (runInterleaved mutA mutB gControlled psABC).1.roundWinners = ["B"] ∧
    ((rosterFind (runSerialized mutA mutB gControlled psABC).2 "A").map
       (fun p => p.roundsCompleted.getD 0 false)) = some true ∧
    ((rosterFind (runInterleaved mutA mutB gControlled psABC).2 "A").map
       (fun p => p.roundsCompleted.getD 0 false)) = some false ∧
    runInterleaved mutA mutB gControlled psABC ≠
      runSerialized mutA mutB gControlled psABC := by
  refine ⟨rfl, rfl, rfl, rfl, by decide⟩
